import Mathlib

/-!
Verification of `generative/engines/trainer.py` (class `AdversarialTrainer`):
a shallow embedding of the `_iteration` training-step function and of the
`get_state` checkpoint-export method, together with theorems settling the
specified claims about them.

Tensors, state dicts and similar opaque runtime values are modelled by an
abstract type `V`; tensor operations appearing in the source
(inferer calls, loss functions, `.mean()`, `.float().contiguous()`,
`.contiguous().detach()`, `+`, gradient-scaler `scale`) are abstract
functions carried by the `Engine` structure.  Python dictionaries are
modelled by functions into `Option`: lookup of an absent key is `none`.
Side effects of an iteration (events fired, `.backward()` calls,
`zero_grad` calls, optimizer / scaler steps) are collected in an explicit
`Trace`, since the claims quantify over them.
-/

namespace GenerativeTrainer

/-- Keys of the per-iteration output record written by
`AdversarialTrainer._iteration`: `CommonKeys` IMAGE, LABEL, PRED, LOSS
(imported as `Keys`) plus the `AdversarialKeys` members the trainer writes. -/
inductive OutKey
  | IMAGE
  | LABEL
  | PRED
  | LOSS
  | REALS
  | FAKES
  | REAL_LOGITS
  | FAKE_LOGITS
  | RECONSTRUCTION_LOSS
  | GENERATOR_LOSS
  | DISCRIMINATOR_LOSS
deriving DecidableEq, Repr

/-- The `AdversarialIterationEvents` fired by `_iteration`, in the order the
source declares them. -/
inductive AdvEvent
  | GENERATOR_FORWARD_COMPLETED
  | GENERATOR_DISCRIMINATOR_FORWARD_COMPLETED
  | RECONSTRUCTION_LOSS_COMPLETED
  | GENERATOR_LOSS_COMPLETED
  | GENERATOR_BACKWARD_COMPLETED
  | GENERATOR_MODEL_COMPLETED
  | DISCRIMINATOR_REALS_FORWARD_COMPLETED
  | DISCRIMINATOR_FAKES_FORWARD_COMPLETED
  | DISCRIMINATOR_LOSS_COMPLETED
  | DISCRIMINATOR_BACKWARD_COMPLETED
deriving DecidableEq, Repr

/-- The mutable output record `engine.state.output`: a dictionary keyed by
`OutKey`, lookup of an absent key being `none`. -/
def Record (V : Type) : Type := OutKey → Option V

/-- Dictionary assignment `record[k] = v`. -/
def Record.set {V : Type} (r : Record V) (k : OutKey) (v : V) : Record V :=
  fun k2 => if k2 = k then some v else r k2

/-- Object on which a `zero_grad` call is made during an iteration. -/
inductive ZeroGradTarget
  | gOptimizer
  | gNetwork
  | dOptimizer
  | dNetwork
deriving DecidableEq, Repr

/-- Optimizer or gradient-scaler stepping calls made during an iteration. -/
inductive StepAction
  | gOptimizerStep
  | gScalerStep
  | gScalerUpdate
  | dOptimizerStep
  | dScalerStep
  | dScalerUpdate
deriving DecidableEq, Repr

/-- Result of `engine.prepare_batch(...)`: the source then tests
`len(batch) == 2` and unpacks either `(inputs, targets)` or
`(inputs, targets, args, kwargs)`. -/
inductive PreparedBatch (V : Type)
  | pair (inputs targets : V)
  | quad (inputs targets : V) (args : List V) (kwargs : List (String × V))

/-- The fields of the trainer touched by `_iteration`.  `B` is the type of
raw batch data, `V` the type of tensors.  Boolean fields record object
presence (`g_scaler is not None`); function fields model the collaborator
calls exactly as composed in the source.  `gOptParams`, `dNetParams`,
`dOptParams` are the parameter sets of `g_optimizer`, `d_network` and
`d_optimizer` (parameters indexed by `Nat`), used by the `zero_grad`
semantics; `backwardUpd` is the (opaque) effect of a `.backward()` call on
the gradient map. -/
structure Engine (V B : Type) where
  amp : Bool
  gScalerPresent : Bool
  dScalerPresent : Bool
  optimSetToNone : Bool
  prepareBatch : B → PreparedBatch V
  gInfer : V → List V → List (String × V) → V
  dInfer : V → List V → List (String × V) → V
  reconLossFn : V → V → V
  gLossFn : V → V
  dLossFn : V → V → V
  mean : V → V
  floatContig : V → V
  contigDetach : V → V
  add : V → V → V
  gScale : V → V
  dScale : V → V
  zero : V
  gOptParams : Nat → Bool
  dNetParams : Nat → Bool
  dOptParams : Nat → Bool
  backwardUpd : V → (Nat → Option V) → Nat → Option V

/-- The part of `engine.state` the iteration touches: the output record and
the gradient slots of all parameters (`none` models a `None` gradient). -/
structure EngineState (V : Type) where
  output : Record V
  grads : Nat → Option V

/-- Trace of the observable side effects of one iteration: events fired (in
order), tensors on which `.backward()` was called (in order), `zero_grad`
targets (in order), optimizer / scaler stepping calls (in order). -/
structure Trace (V : Type) where
  events : List AdvEvent
  backwards : List V
  zeroGrads : List ZeroGradTarget
  steps : List StepAction

/-- Semantics of `obj.zero_grad(set_to_none=...)` on the gradient map: every
parameter of `obj` has its gradient set to `None` (when `set_to_none`) or to
a zero tensor; all other parameters are untouched. -/
def zeroGradOn {V : Type} (params : Nat → Bool) (setToNone : Bool) (zero : V)
    (grads : Nat → Option V) : Nat → Option V :=
  fun p => if params p then (if setToNone then none else some zero) else grads p

/-- Result of the inner closure `_compute_generator_loss`: the updated
output record, the events it fired, and the reconstruction / generator
adversarial loss values it stored (equal to the record entries it wrote). -/
structure GenLossOut (V : Type) where
  out : Record V
  events : List AdvEvent
  reconLoss : V
  generatorLoss : V

/-- The closure `_compute_generator_loss` of `_iteration`: generator forward,
discriminator forward on the (float, contiguous) fakes, reconstruction loss
mean, generator adversarial loss mean, firing the four corresponding events.
The returned `fakes` value is the one stored under both FAKES and PRED. -/
def _compute_generator_loss {V B : Type} (e : Engine V B) (inputs targets : V)
    (args : List V) (kwargs : List (String × V)) (out : Record V) : GenLossOut V :=
  let fakes := e.gInfer inputs args kwargs
  let out := (out.set OutKey.FAKES fakes).set OutKey.PRED fakes
  let fakeLogits := e.dInfer (e.floatContig fakes) args kwargs
  let out := out.set OutKey.FAKE_LOGITS fakeLogits
  let reconLoss := e.mean (e.reconLossFn fakes targets)
  let out := out.set OutKey.RECONSTRUCTION_LOSS reconLoss
  let generatorLoss := e.mean (e.gLossFn fakeLogits)
  let out := out.set OutKey.GENERATOR_LOSS generatorLoss
  { out := out
    events := [AdvEvent.GENERATOR_FORWARD_COMPLETED,
               AdvEvent.GENERATOR_DISCRIMINATOR_FORWARD_COMPLETED,
               AdvEvent.RECONSTRUCTION_LOSS_COMPLETED,
               AdvEvent.GENERATOR_LOSS_COMPLETED]
    reconLoss := reconLoss
    generatorLoss := generatorLoss }

/-- Result of the generator training phase (source lines 227-250): record,
events, backward calls, zero-grad calls, stepping calls, gradients, and the
fakes tensor (needed again by the discriminator phase). -/
structure GenPhaseOut (V : Type) where
  out : Record V
  events : List AdvEvent
  backwards : List V
  zeroGrads : List ZeroGradTarget
  steps : List StepAction
  grads : Nat → Option V
  fakes : V

/-- Generator training phase: `g_network.train()`,
`g_optimizer.zero_grad(set_to_none=...)`, then either the mixed-precision
branch (compute under autocast, store combined loss under LOSS, backward the
scaled loss, fire backward event, scaler step + update) or the plain branch
(compute, backward the unscaled sum directly without storing it, fire
backward event, optimizer step).  The GENERATOR_MODEL_COMPLETED event fires
after the branch, in `_iteration` itself. -/
def generatorPhase {V B : Type} (e : Engine V B) (inputs targets : V)
    (args : List V) (kwargs : List (String × V)) (out : Record V)
    (grads : Nat → Option V) : GenPhaseOut V :=
  let grads := zeroGradOn e.gOptParams e.optimSetToNone e.zero grads
  if e.amp && e.gScalerPresent then
    let gl := _compute_generator_loss e inputs targets args kwargs out
    let combined := e.add gl.reconLoss gl.generatorLoss
    { out := gl.out.set OutKey.LOSS combined
      events := gl.events ++ [AdvEvent.GENERATOR_BACKWARD_COMPLETED]
      backwards := [e.gScale combined]
      zeroGrads := [ZeroGradTarget.gOptimizer]
      steps := [StepAction.gScalerStep, StepAction.gScalerUpdate]
      grads := e.backwardUpd (e.gScale combined) grads
      fakes := e.gInfer inputs args kwargs }
  else
    let gl := _compute_generator_loss e inputs targets args kwargs out
    let combined := e.add gl.reconLoss gl.generatorLoss
    { out := gl.out
      events := gl.events ++ [AdvEvent.GENERATOR_BACKWARD_COMPLETED]
      backwards := [combined]
      zeroGrads := [ZeroGradTarget.gOptimizer]
      steps := [StepAction.gOptimizerStep]
      grads := e.backwardUpd combined grads
      fakes := e.gInfer inputs args kwargs }

/-- Result of the closure `_compute_discriminator_loss`. -/
structure DiscLossOut (V : Type) where
  out : Record V
  events : List AdvEvent
  discriminatorLoss : V

/-- The closure `_compute_discriminator_loss` of `_iteration`: discriminator
forward on the detached contiguous reals (the record's REALS entry) and on
the detached contiguous fakes (the record's FAKES entry), then the
discriminator loss mean, firing the three corresponding events. -/
def _compute_discriminator_loss {V B : Type} (e : Engine V B) (reals fakes : V)
    (args : List V) (kwargs : List (String × V)) (out : Record V) : DiscLossOut V :=
  let realLogits := e.dInfer (e.contigDetach reals) args kwargs
  let out := out.set OutKey.REAL_LOGITS realLogits
  let fakeLogits := e.dInfer (e.contigDetach fakes) args kwargs
  let out := out.set OutKey.FAKE_LOGITS fakeLogits
  let discriminatorLoss := e.mean (e.dLossFn realLogits fakeLogits)
  let out := out.set OutKey.DISCRIMINATOR_LOSS discriminatorLoss
  { out := out
    events := [AdvEvent.DISCRIMINATOR_REALS_FORWARD_COMPLETED,
               AdvEvent.DISCRIMINATOR_FAKES_FORWARD_COMPLETED,
               AdvEvent.DISCRIMINATOR_LOSS_COMPLETED]
    discriminatorLoss := discriminatorLoss }

/-- Result of the discriminator training phase. -/
structure DiscPhaseOut (V : Type) where
  out : Record V
  events : List AdvEvent
  backwards : List V
  zeroGrads : List ZeroGradTarget
  steps : List StepAction
  grads : Nat → Option V

/-- Discriminator training phase (source lines 269-284): `d_network.train()`,
`d_network.zero_grad(set_to_none=...)` (note: the network, not the
optimizer), then either the mixed-precision branch (compute under autocast,
backward the scaled loss, fire DISCRIMINATOR_BACKWARD_COMPLETED, scaler step
+ update) or the plain branch (compute, backward the unscaled loss, optimizer
step, with no backward event fired). -/
def discriminatorPhase {V B : Type} (e : Engine V B) (reals fakes : V)
    (args : List V) (kwargs : List (String × V)) (out : Record V)
    (grads : Nat → Option V) : DiscPhaseOut V :=
  let grads := zeroGradOn e.dNetParams e.optimSetToNone e.zero grads
  if e.amp && e.dScalerPresent then
    let dl := _compute_discriminator_loss e reals fakes args kwargs out
    { out := dl.out
      events := dl.events ++ [AdvEvent.DISCRIMINATOR_BACKWARD_COMPLETED]
      backwards := [e.dScale dl.discriminatorLoss]
      zeroGrads := [ZeroGradTarget.dNetwork]
      steps := [StepAction.dScalerStep, StepAction.dScalerUpdate]
      grads := e.backwardUpd (e.dScale dl.discriminatorLoss) grads }
  else
    let dl := _compute_discriminator_loss e reals fakes args kwargs out
    { out := dl.out
      events := dl.events
      backwards := [dl.discriminatorLoss]
      zeroGrads := [ZeroGradTarget.dNetwork]
      steps := [StepAction.dOptimizerStep]
      grads := e.backwardUpd dl.discriminatorLoss grads }

/-- Successful result of one iteration: the new engine state (whose `output`
is also the returned record) and the side-effect trace. -/
structure IterOut (V : Type) where
  state : EngineState V
  trace : Trace V

/-- The body of `_iteration` after batch unpacking: write the fresh output
record `{IMAGE, LABEL, REALS}`, run the generator phase, fire
GENERATOR_MODEL_COMPLETED, run the discriminator phase, and return
`engine.state.output` together with the trace. -/
def runIterationUnpacked {V B : Type} (e : Engine V B) (st : EngineState V)
    (inputs targets : V) (args : List V) (kwargs : List (String × V)) : IterOut V :=
  let out0 : Record V :=
    Record.set (Record.set (Record.set (fun _ => none) OutKey.IMAGE inputs)
      OutKey.LABEL targets) OutKey.REALS inputs
  let gp := generatorPhase e inputs targets args kwargs out0 st.grads
  let dp := discriminatorPhase e inputs gp.fakes args kwargs gp.out gp.grads
  { state := { output := dp.out, grads := dp.grads }
    trace :=
      { events := gp.events ++ [AdvEvent.GENERATOR_MODEL_COMPLETED] ++ dp.events
        backwards := gp.backwards ++ dp.backwards
        zeroGrads := gp.zeroGrads ++ dp.zeroGrads
        steps := gp.steps ++ dp.steps } }

/-- The body of `_iteration` once batch data is present: prepare and unpack
the batch (a 2-tuple batch means empty `args` and `kwargs`), then run the
two training phases. -/
def runIteration {V B : Type} (e : Engine V B) (st : EngineState V) (bd : B) :
    IterOut V :=
  let batch := e.prepareBatch bd
  match batch with
  | PreparedBatch.pair inputs targets =>
      runIterationUnpacked e st inputs targets [] []
  | PreparedBatch.quad inputs targets args kwargs =>
      runIterationUnpacked e st inputs targets args kwargs

/-- `AdversarialTrainer._iteration`: raises `ValueError` when `batchdata` is
`None` (before anything else runs), otherwise executes the training step. -/
def _iteration {V B : Type} (e : Engine V B) (st : EngineState V)
    (batchdata : Option B) : Except String (IterOut V) :=
  match batchdata with
  | none => Except.error "Must provide batch data for current iteration."
  | some bd => Except.ok (runIteration e st bd)

/-- A Python string-keyed dictionary, modelled by its lookup function. -/
def SDict (V : Type) : Type := String → Option V

/-- Dictionary assignment `d[k] = v`. -/
def SDict.insert {V : Type} (d : SDict V) (k : String) (v : V) : SDict V :=
  fun k2 => if k2 = k then some v else d k2

/-- The sub-state dictionaries `get_state` can read from the trainer.  Plain
fields are the always-available `state_dict()` results; `Option` fields are
`none` when the underlying object is absent (`g_scaler` / `d_scaler` are
`None` because mixed precision is disabled) or does not expose state (the
loss function has no callable `state_dict` attribute). -/
structure TrainerStateSrc (V : Type) where
  engineSD : V
  gNetworkSD : V
  gOptimizerSD : V
  gScalerSD : Option V
  gLossSD : Option V
  dNetworkSD : V
  dOptimizerSD : V
  dScalerSD : Option V
  dLossSD : Option V

/-- The boolean keyword parameters of `get_state`, with no defaults applied
yet; `defaultStateArgs` below holds the signature's default values. -/
structure StateArgs where
  include_engine : Bool
  include_generator : Bool
  include_generator_optimiser : Bool
  include_generator_scaler : Bool
  include_generator_loss : Bool
  include_discriminator : Bool
  include_discriminator_optimiser : Bool
  include_discriminator_scaler : Bool
  include_discriminator_loss : Bool
deriving DecidableEq, Repr

/-- The default values of the `get_state` keyword parameters: every switch
defaults to `True` except the two scaler switches, which default to `False`. -/
def defaultStateArgs : StateArgs :=
  { include_engine := true
    include_generator := true
    include_generator_optimiser := true
    include_generator_scaler := false
    include_generator_loss := true
    include_discriminator := true
    include_discriminator_optimiser := true
    include_discriminator_scaler := false
    include_discriminator_loss := true }

/-- The `warnings.warn` calls `get_state` can make, one tag per distinct
warning site in the source. -/
inductive StateWarning
  | engineNotIncluded
  | generatorNotIncluded
  | generatorOptimizerNotIncluded
  | generatorScalerAbsent
  | generatorScalerNotIncluded
  | generatorLossNoStateDict
  | generatorLossNotIncluded
  | discriminatorNotIncluded
  | discriminatorOptimizerNotIncluded
  | discriminatorScalerAbsent
  | discriminatorScalerNotIncluded
  | discriminatorLossNoStateDict
  | discriminatorLossNotIncluded
deriving DecidableEq, Repr

/-- One always-available switch block of `get_state`: if the switch is on,
store the sub-state under `key`; otherwise warn that it was not included. -/
def putState {V : Type} (dw : SDict V × List StateWarning) (cond : Bool)
    (key : String) (val : V) (offWarn : StateWarning) :
    SDict V × List StateWarning :=
  if cond then (dw.1.insert key val, dw.2) else (dw.1, dw.2 ++ [offWarn])

/-- One optional-sub-state switch block of `get_state` (scaler or loss): if
the switch is on and the sub-state exists, store it under `key`; if the
switch is on but the sub-state is absent, warn (`absentWarn`) and omit the
key; if the switch is off, warn that it was not included. -/
def putOptState {V : Type} (dw : SDict V × List StateWarning) (cond : Bool)
    (key : String) (val : Option V) (absentWarn offWarn : StateWarning) :
    SDict V × List StateWarning :=
  if cond then
    match val with
    | some v => (dw.1.insert key v, dw.2)
    | none => (dw.1, dw.2 ++ [absentWarn])
  else (dw.1, dw.2 ++ [offWarn])

/-- Result of `get_state`: the returned `state_dict` mapping and the
warnings emitted while building it. -/
structure GetStateResult (V : Type) where
  dict : SDict V
  warnings : List StateWarning

/-- `AdversarialTrainer.get_state`: builds `state_dict` by running the nine
switch blocks in source order, then merges `additional_states` last (its
entries override same-named keys, the lookup semantics of `dict.update`).
The operation contains no raise site: it is total and always returns a
best-effort mapping. -/
def get_state {V : Type} (t : TrainerStateSrc V) (a : StateArgs)
    (additional_states : Option (SDict V)) : GetStateResult V :=
  let dw : SDict V × List StateWarning := (fun _ => none, [])
  let dw := putState dw a.include_engine "engine" t.engineSD
    StateWarning.engineNotIncluded
  let dw := putState dw a.include_generator "generator" t.gNetworkSD
    StateWarning.generatorNotIncluded
  let dw := putState dw a.include_generator_optimiser "generator_optimizer"
    t.gOptimizerSD StateWarning.generatorOptimizerNotIncluded
  let dw := putOptState dw a.include_generator_scaler "generator_scaler"
    t.gScalerSD StateWarning.generatorScalerAbsent
    StateWarning.generatorScalerNotIncluded
  let dw := putOptState dw a.include_generator_loss "generator_loss"
    t.gLossSD StateWarning.generatorLossNoStateDict
    StateWarning.generatorLossNotIncluded
  let dw := putState dw a.include_discriminator "discriminator" t.dNetworkSD
    StateWarning.discriminatorNotIncluded
  let dw := putState dw a.include_discriminator_optimiser
    "discriminator_optimizer" t.dOptimizerSD
    StateWarning.discriminatorOptimizerNotIncluded
  let dw := putOptState dw a.include_discriminator_scaler "discriminator_scaler"
    t.dScalerSD StateWarning.discriminatorScalerAbsent
    StateWarning.discriminatorScalerNotIncluded
  let dw := putOptState dw a.include_discriminator_loss "discriminator_loss"
    t.dLossSD StateWarning.discriminatorLossNoStateDict
    StateWarning.discriminatorLossNotIncluded
  let d : SDict V :=
    match additional_states with
    | some adds => fun k =>
        match adds k with
        | some v => some v
        | none => dw.1 k
    | none => dw.1
  { dict := d, warnings := dw.2 }

/-- The include switches of the `get_state` signature, in source order. -/
def includeSwitches : List (StateArgs → Bool) :=
  [StateArgs.include_engine,
   StateArgs.include_generator,
   StateArgs.include_generator_optimiser,
   StateArgs.include_generator_scaler,
   StateArgs.include_generator_loss,
   StateArgs.include_discriminator,
   StateArgs.include_discriminator_optimiser,
   StateArgs.include_discriminator_scaler,
   StateArgs.include_discriminator_loss]

/-- The named sub-states a `get_state` switch can include. -/
inductive SubState
  | engine
  | generator
  | generatorOptimizer
  | generatorScaler
  | generatorLoss
  | discriminator
  | discriminatorOptimizer
  | discriminatorScaler
  | discriminatorLoss
deriving DecidableEq, Repr

/-- The dictionary key under which `get_state` stores each sub-state. -/
def SubState.key : SubState → String
  | SubState.engine => "engine"
  | SubState.generator => "generator"
  | SubState.generatorOptimizer => "generator_optimizer"
  | SubState.generatorScaler => "generator_scaler"
  | SubState.generatorLoss => "generator_loss"
  | SubState.discriminator => "discriminator"
  | SubState.discriminatorOptimizer => "discriminator_optimizer"
  | SubState.discriminatorScaler => "discriminator_scaler"
  | SubState.discriminatorLoss => "discriminator_loss"

/-- The switch of the `get_state` signature controlling each sub-state. -/
def SubState.switch : SubState → StateArgs → Bool
  | SubState.engine => StateArgs.include_engine
  | SubState.generator => StateArgs.include_generator
  | SubState.generatorOptimizer => StateArgs.include_generator_optimiser
  | SubState.generatorScaler => StateArgs.include_generator_scaler
  | SubState.generatorLoss => StateArgs.include_generator_loss
  | SubState.discriminator => StateArgs.include_discriminator
  | SubState.discriminatorOptimizer => StateArgs.include_discriminator_optimiser
  | SubState.discriminatorScaler => StateArgs.include_discriminator_scaler
  | SubState.discriminatorLoss => StateArgs.include_discriminator_loss

/-- The underlying state of each sub-state on the trainer (`none` when the
underlying object is absent or exposes no state). -/
def SubState.underlying {V : Type} (t : TrainerStateSrc V) : SubState → Option V
  | SubState.engine => some t.engineSD
  | SubState.generator => some t.gNetworkSD
  | SubState.generatorOptimizer => some t.gOptimizerSD
  | SubState.generatorScaler => t.gScalerSD
  | SubState.generatorLoss => t.gLossSD
  | SubState.discriminator => some t.dNetworkSD
  | SubState.discriminatorOptimizer => some t.dOptimizerSD
  | SubState.discriminatorScaler => t.dScalerSD
  | SubState.discriminatorLoss => t.dLossSD

/-- A concrete engine instance over integer-valued tensors and integer raw
batches, used to evaluate the iteration model at explicit inputs.  The
scaler-presence fields follow the constructor, which creates the scalers
exactly when `amp` is set. -/
def cEngine (ampOn : Bool) : Engine Int Int :=
  { amp := ampOn
    gScalerPresent := ampOn
    dScalerPresent := ampOn
    optimSetToNone := false
    prepareBatch := fun b => PreparedBatch.pair b (b + 1)
    gInfer := fun x _ _ => x * 2
    dInfer := fun x _ _ => x - 1
    reconLossFn := fun a b => a - b
    gLossFn := fun x => x
    dLossFn := fun a b => a + b
    mean := fun x => x
    floatContig := fun x => x
    contigDetach := fun x => x
    add := fun a b => a + b
    gScale := fun x => x * 3
    dScale := fun x => x * 3
    zero := 0
    gOptParams := fun p => p == 0
    dNetParams := fun p => p == 3
    dOptParams := fun p => p == 7
    backwardUpd := fun v g => fun p => some ((g p).getD 0 + v) }

/-- A concrete starting engine state: empty output record, every parameter
holding gradient 5. -/
def cState : EngineState Int :=
  { output := fun _ => none, grads := fun _ => some 5 }

/-- The nine events of §4.1 in their fixed firing order (the tenth,
DISCRIMINATOR_BACKWARD_COMPLETED, is appended only on the mixed-precision
path). -/
def nineEvents : List AdvEvent :=
  [AdvEvent.GENERATOR_FORWARD_COMPLETED,
   AdvEvent.GENERATOR_DISCRIMINATOR_FORWARD_COMPLETED,
   AdvEvent.RECONSTRUCTION_LOSS_COMPLETED,
   AdvEvent.GENERATOR_LOSS_COMPLETED,
   AdvEvent.GENERATOR_BACKWARD_COMPLETED,
   AdvEvent.GENERATOR_MODEL_COMPLETED,
   AdvEvent.DISCRIMINATOR_REALS_FORWARD_COMPLETED,
   AdvEvent.DISCRIMINATOR_FAKES_FORWARD_COMPLETED,
   AdvEvent.DISCRIMINATOR_LOSS_COMPLETED]

/-- C3: calling `_iteration` with an absent batch yields exactly the
`ValueError` of line 193, raised before anything else runs: the result
carries no new state and an empty effect trace, so no network, inferer,
loss, optimizer or event call occurred and no (partial) output record was
written back into the training state. -/
theorem c3_none_batch_raises {V B : Type} (e : Engine V B) (st : EngineState V) :
    _iteration e st none =
      Except.error "Must provide batch data for current iteration." := rfl

/-- C1 evaluation at a failing input: with mixed precision disabled the
returned output record has no `Keys.LOSS` entry, while with it enabled the
entry is present — the record's key set differs between the two precision
modes, contradicting the claim (and the function's own docstring, which
lists LOSS among the returned items unconditionally). -/
theorem c1_loss_key_missing_without_amp :
    (runIteration (cEngine false) cState 3).state.output OutKey.LOSS = none
    ∧ (runIteration (cEngine true) cState 3).state.output OutKey.LOSS = some 7 := by
  constructor <;> decide

/-- C2: in the output record returned by every iteration, the PRED entry is
the very value stored under FAKES (the source assigns
`output[PRED] = output[FAKES]`), and the REALS entry is the very value
stored under IMAGE (both are the batch inputs); aliasing of Python object
references is modelled as equality of the stored values. -/
theorem c2_pred_aliases_fakes_reals_alias_image {V B : Type} (e : Engine V B)
    (st : EngineState V) (bd : B) :
    (runIteration e st bd).state.output OutKey.PRED
      = (runIteration e st bd).state.output OutKey.FAKES
    ∧ (runIteration e st bd).state.output OutKey.REALS
      = (runIteration e st bd).state.output OutKey.IMAGE := by
  rcases h : e.prepareBatch bd with ⟨i, t⟩ | ⟨i, t, as, ks⟩ <;>
    cases hg : e.amp && e.gScalerPresent <;>
      cases hd : e.amp && e.dScalerPresent <;>
        simp [runIteration, h, runIterationUnpacked, generatorPhase,
          discriminatorPhase, _compute_generator_loss,
          _compute_discriminator_loss, Record.set, hg, hd]

/-- C4: in every iteration (with the scaler-presence fields as the
constructor sets them, a scaler existing exactly when `amp` is on) the fired
events are exactly the nine events of §4.1 in their fixed order, each once,
with DISCRIMINATOR_BACKWARD_COMPLETED appended if and only if mixed
precision is enabled. -/
theorem c4_event_order {V B : Type} (e : Engine V B) (st : EngineState V) (bd : B)
    (hg : e.gScalerPresent = e.amp) (hd : e.dScalerPresent = e.amp) :
    (runIteration e st bd).trace.events =
      (if e.amp then nineEvents ++ [AdvEvent.DISCRIMINATOR_BACKWARD_COMPLETED]
       else nineEvents) := by
  rcases h : e.prepareBatch bd with ⟨i, t⟩ | ⟨i, t, as, ks⟩ <;>
    cases ha : e.amp <;>
      simp [runIteration, h, runIterationUnpacked, generatorPhase,
        discriminatorPhase, _compute_generator_loss, _compute_discriminator_loss,
        hg, hd, ha, nineEvents]

/-- Witness for C4 at the concrete mixed-precision engine and batch 3. -/
theorem c4_event_order_witness :
    (runIteration (cEngine true) cState 3).trace.events =
      (if (cEngine true).amp then
        nineEvents ++ [AdvEvent.DISCRIMINATOR_BACKWARD_COMPLETED]
       else nineEvents) :=
  c4_event_order (cEngine true) cState 3 rfl rfl

/-- C5: in every iteration the output record holds reconstruction and
generator adversarial loss entries; with mixed precision disabled the value
handed to `.backward()` in the generator phase (the first backward call of
the iteration) is exactly the sum of those two entries, and whenever a
combined-loss entry is stored under `Keys.LOSS` its value is exactly that
sum (equality of the abstract tensor values, hence equality to
floating-point tolerance of the runtime tensors). -/
theorem c5_combined_loss {V B : Type} (e : Engine V B) (st : EngineState V) (bd : B) :
    ((runIteration e st bd).state.output OutKey.RECONSTRUCTION_LOSS).isSome = true
    ∧ ((runIteration e st bd).state.output OutKey.GENERATOR_LOSS).isSome = true
    ∧ (e.amp = false →
        (runIteration e st bd).trace.backwards.head? =
          some (e.add
            (((runIteration e st bd).state.output OutKey.RECONSTRUCTION_LOSS).getD e.zero)
            (((runIteration e st bd).state.output OutKey.GENERATOR_LOSS).getD e.zero)))
    ∧ (∀ v, (runIteration e st bd).state.output OutKey.LOSS = some v →
        v = e.add
          (((runIteration e st bd).state.output OutKey.RECONSTRUCTION_LOSS).getD e.zero)
          (((runIteration e st bd).state.output OutKey.GENERATOR_LOSS).getD e.zero)) := by
  rcases h : e.prepareBatch bd with ⟨i, t⟩ | ⟨i, t, as, ks⟩ <;>
    cases ha : e.amp <;>
      cases hg : e.gScalerPresent <;>
        cases hd : e.dScalerPresent <;>
          simp [runIteration, h, runIterationUnpacked, generatorPhase,
            discriminatorPhase, _compute_generator_loss,
            _compute_discriminator_loss, Record.set, ha, hg, hd]

/-- Witness for C5 at the concrete non-mixed-precision engine and batch 3:
the generator-phase backward call receives 7 = 2 + 5, the sum of the
record's reconstruction loss (2) and generator adversarial loss (5). -/
theorem c5_combined_loss_witness :
    (runIteration (cEngine false) cState 3).trace.backwards.head? = some 7 := by
  have h := c5_combined_loss (cEngine false) cState 3
  exact h.2.2.1 rfl

/-- C10: every iteration performs exactly two gradient-zeroing calls, on the
generator optimizer then on the discriminator network (not the discriminator
optimizer); and the discriminator-phase zeroing call of line 271,
`d_network.zero_grad(set_to_none=...)`, leaves unchanged the gradient of any
parameter that is managed by the discriminator optimizer but is not a
parameter of the discriminator network. -/
theorem c10_discriminator_zero_grad {V B : Type} (e : Engine V B)
    (st : EngineState V) (bd : B) :
    (runIteration e st bd).trace.zeroGrads =
      [ZeroGradTarget.gOptimizer, ZeroGradTarget.dNetwork]
    ∧ (∀ (grads : Nat → Option V) (p : Nat), e.dOptParams p = true →
        e.dNetParams p = false →
        zeroGradOn e.dNetParams e.optimSetToNone e.zero grads p = grads p) := by
  constructor
  · rcases h : e.prepareBatch bd with ⟨i, t⟩ | ⟨i, t, as, ks⟩ <;>
      cases hg : e.amp && e.gScalerPresent <;>
        cases hd : e.amp && e.dScalerPresent <;>
          simp [runIteration, h, runIterationUnpacked, generatorPhase,
            discriminatorPhase, _compute_generator_loss,
            _compute_discriminator_loss, hg, hd]
  · intro grads p hp hnp
    simp [zeroGradOn, hnp]

/-- Witness for C10 at the concrete engine, batch 3, and parameter 7 (managed
by the discriminator optimizer, not a discriminator-network parameter): its
gradient 5 survives the discriminator-phase zeroing call. -/
theorem c10_discriminator_zero_grad_witness :
    (runIteration (cEngine false) cState 3).trace.zeroGrads =
      [ZeroGradTarget.gOptimizer, ZeroGradTarget.dNetwork]
    ∧ zeroGradOn (cEngine false).dNetParams (cEngine false).optimSetToNone
        (cEngine false).zero (fun _ => some 5) 7 = some 5 := by
  have h := c10_discriminator_zero_grad (cEngine false) cState 3
  exact ⟨h.1, h.2 (fun _ => some 5) 7 rfl rfl⟩

theorem putState_fst_apply {V : Type} (dw : SDict V × List StateWarning)
    (cond : Bool) (key : String) (val : V) (ow : StateWarning) (k : String) :
    (putState dw cond key val ow).1 k =
      if cond = true ∧ k = key then some val else dw.1 k := by
  cases cond <;> simp [putState, SDict.insert]

theorem putOptState_fst_apply {V : Type} (dw : SDict V × List StateWarning)
    (cond : Bool) (key : String) (val : Option V) (aw ow : StateWarning)
    (k : String) :
    (putOptState dw cond key val aw ow).1 k =
      if cond = true ∧ k = key then
        (match val with | some v => some v | none => dw.1 k)
      else dw.1 k := by
  cases cond <;> cases val <;> simp [putOptState, SDict.insert]

theorem putState_snd_mem {V : Type} (dw : SDict V × List StateWarning)
    (cond : Bool) (key : String) (val : V) (ow : StateWarning)
    (w : StateWarning) (hw : w ∈ dw.2) :
    w ∈ (putState dw cond key val ow).2 := by
  cases cond <;> simp [putState, hw]

theorem putOptState_snd_mem {V : Type} (dw : SDict V × List StateWarning)
    (cond : Bool) (key : String) (val : Option V) (aw ow : StateWarning)
    (w : StateWarning) (hw : w ∈ dw.2) :
    w ∈ (putOptState dw cond key val aw ow).2 := by
  cases cond <;> cases val <;> simp [putOptState, hw]

theorem putOptState_snd_absent {V : Type} (dw : SDict V × List StateWarning)
    (key : String) (aw ow : StateWarning) :
    aw ∈ (putOptState dw true key none aw ow).2 := by
  simp [putOptState]

/-- Characterization of the `get_state` dictionary (no additional states):
each sub-state key holds the underlying state exactly when its switch is on
and the underlying state exists, and holds nothing otherwise. -/
theorem get_state_dict_char {V : Type} (t : TrainerStateSrc V) (a : StateArgs)
    (s : SubState) :
    (get_state t a none).dict s.key =
      (if s.switch a = true then SubState.underlying t s else none) := by
  cases s <;>
    simp [get_state, SubState.key, SubState.switch, SubState.underlying,
      putState_fst_apply, putOptState_fst_apply] <;>
    first
      | rfl
      | (rcases t.gScalerSD with _ | v <;> simp)
      | (rcases t.gLossSD with _ | v <;> simp)
      | (rcases t.dScalerSD with _ | v <;> simp)
      | (rcases t.dLossSD with _ | v <;> simp)

/-- C6 counterexample: the `get_state` signature has nine include switches,
not ten as claimed. -/
theorem c6_ten_switches_counterexample : ¬ includeSwitches.length = 10 := by
  decide

/-- C6 (amended): the state-export operation exposes nine boolean switches,
each independently controlling inclusion of its one named sub-state: the
snapshot's entry at a sub-state's key is its underlying state exactly when
its own switch is on (and nothing when the switch is off or the underlying
state is absent), regardless of every other switch. -/
theorem c6_nine_switches :
    includeSwitches.length = 9
    ∧ ∀ (V : Type) (t : TrainerStateSrc V) (a : StateArgs) (s : SubState),
        (get_state t a none).dict s.key =
          (if s.switch a = true then SubState.underlying t s else none) := by
  refine ⟨rfl, ?_⟩
  intro V t a s
  exact get_state_dict_char t a s

/-- C7: for every trainer and every switch combination, an enabled scaler
switch with the scaler absent (mixed precision disabled) yields the
corresponding non-fatal warning and an omitted key; and the export (a total
function, with no raise site in the source) returns a mapping containing
every sub-state whose switch is enabled and whose underlying state exists. -/
theorem c7_export_best_effort {V : Type} (t : TrainerStateSrc V) (a : StateArgs) :
    (a.include_generator_scaler = true → t.gScalerSD = none →
      StateWarning.generatorScalerAbsent ∈ (get_state t a none).warnings
      ∧ (get_state t a none).dict "generator_scaler" = none)
    ∧ (a.include_discriminator_scaler = true → t.dScalerSD = none →
      StateWarning.discriminatorScalerAbsent ∈ (get_state t a none).warnings
      ∧ (get_state t a none).dict "discriminator_scaler" = none)
    ∧ (∀ (s : SubState) (v : V), s.switch a = true →
        SubState.underlying t s = some v →
        (get_state t a none).dict s.key = some v) := by
  refine ⟨?_, ?_, ?_⟩
  · intro h1 h2
    constructor
    · simp only [get_state, h1, h2]
      apply putOptState_snd_mem
      apply putOptState_snd_mem
      apply putState_snd_mem
      apply putState_snd_mem
      apply putOptState_snd_mem
      exact putOptState_snd_absent _ _ _ _
    · simp [get_state, putState_fst_apply, putOptState_fst_apply, h1, h2]
  · intro h1 h2
    constructor
    · simp only [get_state, h1, h2]
      apply putOptState_snd_mem
      exact putOptState_snd_absent _ _ _ _
    · simp [get_state, putState_fst_apply, putOptState_fst_apply, h1, h2]
  · intro s v hs hv
    have h := get_state_dict_char t a s
    rw [hs, if_pos rfl, hv] at h
    exact h

/-- A concrete trainer state over integer-valued state dicts, with both
scalers absent (mixed precision disabled) and both loss functions exposing
state. -/
def cTrainer : TrainerStateSrc Int :=
  { engineSD := 10
    gNetworkSD := 11
    gOptimizerSD := 12
    gScalerSD := none
    gLossSD := some 13
    dNetworkSD := 14
    dOptimizerSD := 15
    dScalerSD := none
    dLossSD := some 16 }

/-- The `get_state` call with every include switch enabled. -/
def allOnStateArgs : StateArgs :=
  { include_engine := true
    include_generator := true
    include_generator_optimiser := true
    include_generator_scaler := true
    include_generator_loss := true
    include_discriminator := true
    include_discriminator_optimiser := true
    include_discriminator_scaler := true
    include_discriminator_loss := true }

/-- Witness for C7 at the concrete trainer with mixed precision disabled and
all switches on: the absent-scaler warning fires, the scaler key is omitted,
and an enabled switch whose sub-state exists (the generator network) is in
the snapshot. -/
theorem c7_export_best_effort_witness :
    (StateWarning.generatorScalerAbsent ∈
        (get_state cTrainer allOnStateArgs none).warnings
      ∧ (get_state cTrainer allOnStateArgs none).dict "generator_scaler" = none)
    ∧ (get_state cTrainer allOnStateArgs none).dict "generator" = some 11 := by
  have h := c7_export_best_effort cTrainer allOnStateArgs
  exact ⟨h.1 rfl rfl, h.2.2 SubState.generator 11 rfl rfl⟩

/-- C8: the `additional_states` mapping is merged into the snapshot last: a
lookup of the returned mapping gives the caller-supplied value wherever
`additional_states` binds the key (overriding any switch-produced value for
the same name), and the switch-produced value otherwise. -/
theorem c8_additional_states_merge_last {V : Type} (t : TrainerStateSrc V)
    (a : StateArgs) (adds : SDict V) (k : String) :
    (get_state t a (some adds)).dict k =
      (match adds k with
       | some v => some v
       | none => (get_state t a none).dict k) := rfl

/-- C9: with no arguments (all defaults: every switch on except the two
scaler switches, no additional states), the snapshot contains the engine,
generator, generator optimizer, discriminator and discriminator optimizer
states, contains each loss state exactly when that loss function exposes
one, and never contains a scaler key. -/
theorem c9_default_snapshot {V : Type} (t : TrainerStateSrc V) :
    (get_state t defaultStateArgs none).dict "engine" = some t.engineSD
    ∧ (get_state t defaultStateArgs none).dict "generator" = some t.gNetworkSD
    ∧ (get_state t defaultStateArgs none).dict "generator_optimizer"
        = some t.gOptimizerSD
    ∧ (get_state t defaultStateArgs none).dict "generator_loss" = t.gLossSD
    ∧ (get_state t defaultStateArgs none).dict "discriminator"
        = some t.dNetworkSD
    ∧ (get_state t defaultStateArgs none).dict "discriminator_optimizer"
        = some t.dOptimizerSD
    ∧ (get_state t defaultStateArgs none).dict "discriminator_loss" = t.dLossSD
    ∧ (get_state t defaultStateArgs none).dict "generator_scaler" = none
    ∧ (get_state t defaultStateArgs none).dict "discriminator_scaler" = none := by
  refine ⟨?_, ?_, ?_, ?_, ?_, ?_, ?_, ?_, ?_⟩
  · exact get_state_dict_char t defaultStateArgs SubState.engine
  · exact get_state_dict_char t defaultStateArgs SubState.generator
  · exact get_state_dict_char t defaultStateArgs SubState.generatorOptimizer
  · exact get_state_dict_char t defaultStateArgs SubState.generatorLoss
  · exact get_state_dict_char t defaultStateArgs SubState.discriminator
  · exact get_state_dict_char t defaultStateArgs SubState.discriminatorOptimizer
  · exact get_state_dict_char t defaultStateArgs SubState.discriminatorLoss
  · exact get_state_dict_char t defaultStateArgs SubState.generatorScaler
  · exact get_state_dict_char t defaultStateArgs SubState.discriminatorScaler

end GenerativeTrainer
